import Mathlib

/-!
Shallow embedding of `src/weather/weather.py` (the `NwsBot` maubot plugin):
location resolution, request-URL construction, option-set construction,
XML-response parsing into the observation dictionary, and message formatting.

Conventions of the embedding:
* Python strings are `String`; Python `None` for an optional string is
  `Option.none`, so values of type `Option String` model
  "a Python string or `None`".
* `self.config[name]` is modelled as a function `String → Option String`
  (`none` models a null or absent entry).
* Python `str.strip()` is `pyStrip` below (drop leading and trailing
  whitespace characters from both ends).
* A Python `dict` built by key insertion is modelled as an association list
  together with `dictInsert`, which overwrites in place on an existing key
  and appends a fresh key at the end — exactly the insertion-order/overwrite
  semantics of `dict`.
* `xml.etree.ElementTree.fromstring` is an external library call; it is
  modelled abstractly as a parameter of type
  `String → Except ParseError XMLElem` that either returns the root element
  of a well-formed document or fails (the exception the library raises on
  malformed input; the specification calls this error kind
  `MalformedResponseError`).
* the `yarl.URL(...)` construction of `_base_url` together with the `str()`
  round-trip of `_url` is likewise an external library call, modelled
  abstractly as a parameter `yarlStr : String → String` applied to the
  f-string (yarl may normalize the string, e.g. percent-encode unsafe path
  characters such as a space).
-/

/-- Model of Python's default whitespace test used by `str.strip()`. -/
def isPySpace (c : Char) : Bool :=
  c.isWhitespace

/-- Strip whitespace from both ends of a character list. -/
def pyStripChars (l : List Char) : List Char :=
  ((l.dropWhile isPySpace).reverse.dropWhile isPySpace).reverse

/-- Model of Python `str.strip()` with no argument. -/
def pyStrip (s : String) : String :=
  String.mk (pyStripChars s.data)

/-- Embeds `NwsBot._service_url` (class attribute, line 28 of the source). -/
def service_url : String :=
  "https://w1.weather.gov/xml/current_obs"

/-- Embeds `NwsBot._config_value` (lines 86–91):
`self.config[name].strip() if self.config[name] is not None else ""`. -/
def config_value (config : String → Option String) (name : String) : String :=
  match config name with
  | some v => pyStrip v
  | none => ""

/-- Embeds `NwsBot._location` (lines 93–103).  The first argument of the
result-relevant state is `stored_location`, the current value of
`self._stored_location` (the empty string right after
`_reset_stored_values`).  When `stored_location` is empty the body strips
the raw argument, substitutes the configured default when the stripped raw
argument is empty, strips once more and stores the result; otherwise the
stored value is returned unchanged.  The returned string is both the
function's return value and the new `self._stored_location`. -/
def location_resolve (config : String → Option String)
    (stored_location : String) (location : String) : String :=
  if stored_location = "" then
    pyStrip
      (if pyStrip location ≠ "" then pyStrip location
       else config_value config "default_location")
  else stored_location

/-- Embeds `NwsBot._base_url` (lines 83–84):
`URL(f"{self._service_url}/{self._location()}.xml")`, applied to an
already-resolved location.  The `yarl.URL` construction (together with the
`str()` applied by `_url`) is an external library call, modelled abstractly
as the parameter `yarlStr` applied to the f-string; yarl may normalize the
string, e.g. percent-encode a space in the path. -/
def base_url (yarlStr : String → String) (loc : String) : String :=
  yarlStr (service_url ++ "/" ++ loc ++ ".xml")

/-- Embeds `NwsBot._url` (lines 130–131): `f"{self._base_url()}"` (the
`str()` round-trip is folded into `yarlStr`, see `base_url`).  Note the
source builds the URL from the base URL alone; `_options` is never
consulted. -/
def url_of (yarlStr : String → String) (loc : String) : String :=
  base_url yarlStr loc

/-- Test stand-in for the `str(yarl.URL(...))` round-trip, used only to
instantiate theorems at concrete inputs: on those inputs every character of
the URL string is URL-safe (unreserved or reserved-in-position), and yarl
returns such path-only URL strings unchanged. -/
def yarlStrStub : String → String := fun s => s

/-- Embeds `NwsBot._options` (lines 114–124), as a function of the stored
language and units (`options["lang"] = lang` when the language is non-empty,
`options[units] = ""` when the units string is non-empty). -/
def options_of (stored_language stored_units : String) : List (String × String) :=
  (if stored_language ≠ "" then [("lang", stored_language)] else []) ++
    (if stored_units ≠ "" then [(stored_units, "")] else [])

/-- An XML element: tag name, text content (`none` models
`ElementTree`'s `None` text, e.g. for `<x/>`), and direct children. -/
inductive XMLElem where
  | mk : String → Option String → List XMLElem → XMLElem

/-- Tag name of an element. -/
def XMLElem.tag : XMLElem → String
  | .mk t _ _ => t

/-- Text content of an element (`none` when the element has no text). -/
def XMLElem.text : XMLElem → Option String
  | .mk _ x _ => x

/-- Direct children of an element. -/
def XMLElem.children : XMLElem → List XMLElem
  | .mk _ _ c => c

/-- The error raised by `ElementTree.fromstring` on input that is not
well-formed XML (`xml.etree.ElementTree.ParseError`; the specification's
`MalformedResponseError`). -/
structure ParseError where
  msg : String

/-- Python-`dict` insertion on an association list: overwrite the value in
place when the key is already present, append the new pair otherwise. -/
def dictInsert (d : List (String × α)) (k : String) (v : α) : List (String × α) :=
  match d with
  | [] => [(k, v)]
  | (k', v') :: rest =>
    if k' == k then (k', v) :: rest else (k', v') :: dictInsert rest k v

/-- Python-`dict` key lookup on an association list (`d[k]` as an `Option`). -/
def dictLookup (d : List (String × α)) (k : String) : Option α :=
  (d.find? (fun p => p.1 == k)).map (fun p => p.2)

/-- Python `d.get(k)` on an observation dictionary: the stored value when
the key is present (itself possibly `None`), and `None` when absent. -/
def pyGet (d : List (String × Option String)) (k : String) : Option String :=
  match dictLookup d k with
  | some v => v
  | none => none

/-- Body of the `for child in tree` loop of `NwsBot._parse_xml`
(lines 142–147): skip `image` and `observation_time` children, otherwise
`wxdict[child.tag] = child.text`. -/
def parseStep (wxdict : List (String × Option String)) (child : XMLElem) :
    List (String × Option String) :=
  if child.tag == "image" then wxdict
  else if child.tag == "observation_time" then wxdict
  else dictInsert wxdict child.tag child.text

/-- The dictionary-building part of `NwsBot._parse_xml` (lines 138–149),
applied to an already-parsed root element: start from the empty dict and
run `parseStep` over the direct children of the root. -/
def parse_tree (tree : XMLElem) : List (String × Option String) :=
  tree.children.foldl parseStep []

/-- Embeds `NwsBot._parse_xml` (lines 133–149), with the `ElementTree`
parser passed in as `fromstring`: the first statement
`tree = ET.fromstring(xmldata)` runs before any dictionary construction,
so a parse failure propagates and no dictionary is ever built. -/
def parse_xml (fromstring : String → Except ParseError XMLElem)
    (xmldata : String) : Except ParseError (List (String × Option String)) :=
  match fromstring xmldata with
  | .error e => .error e
  | .ok tree => .ok (parse_tree tree)

/-- Rendering of a field inside a Python f-string: `str()` of a `d.get(k)`
result, which is the string itself when present and the text `"None"` for
Python `None`. -/
def pyStrOpt : Option String → String
  | some s => s
  | none => "None"

/-- The eight observation fields named by the formatting template in
`weather_handler` (lines 59–66). -/
def eightFields : List String :=
  ["station_id", "location", "weather", "temperature_string",
   "relative_humidity", "wind_string", "dewpoint_string", "visibility_mi"]

/-- Embeds the `wxfmt` f-string of `weather_handler` (lines 59–66).  Each
source line ends with a backslash followed by a newline (`\\\n` in the
Python literal). -/
def wxfmt (wxdata : List (String × Option String)) : String :=
  "[" ++ pyStrOpt (pyGet wxdata "station_id") ++ "] Location: " ++
    pyStrOpt (pyGet wxdata "location") ++ "\\\n" ++
  "Weather: " ++ pyStrOpt (pyGet wxdata "weather") ++ "\\\n" ++
  "Temperature: " ++ pyStrOpt (pyGet wxdata "temperature_string") ++ "\\\n" ++
  "Relative Humidity: " ++ pyStrOpt (pyGet wxdata "relative_humidity") ++ "\\\n" ++
  "Wind: " ++ pyStrOpt (pyGet wxdata "wind_string") ++ "\\\n" ++
  "Dew Point: " ++ pyStrOpt (pyGet wxdata "dewpoint_string") ++ "\\\n" ++
  "Visibility (miles): " ++ pyStrOpt (pyGet wxdata "visibility_mi")

/-- Embeds `NwsBot._message` (lines 105–112): when `show_link` is set,
append a blank line and the markdown link containing `self._url()`; the
unused `location_match` regex search (dead code in the source) has no
effect on the result and is omitted. -/
def message_of (show_link : Bool) (content : String) (url : String) : String :=
  if show_link then content ++ "\n\n([weather.gov](" ++ url ++ "))"
  else content

/-! ### Helper lemmas about stripping -/

/-- The head of `l.dropWhile p`, when present, fails `p`. -/
lemma dropWhile_head_false {α : Type} {p : α → Bool} {l : List α} {a : α}
    (h : (l.dropWhile p).head? = some a) : p a = false := by
  have hm := List.head?_dropWhile_not p l
  rw [h] at hm
  exact hm

/-- A list whose head (if any) fails `p` is unchanged by `dropWhile p`. -/
lemma dropWhile_eq_self_of_head? {α : Type} {p : α → Bool} {l : List α}
    (h : ∀ a, l.head? = some a → p a = false) : l.dropWhile p = l := by
  cases l with
  | nil => rfl
  | cons a l =>
    have ha := h a rfl
    simp [List.dropWhile_cons, ha]

/-- The head of a nonempty list is the head of any list it is a prefix of. -/
lemma prefixHead_eq {α : Type} {l₁ l₂ : List α} (h : l₁ <+: l₂) {a : α}
    (ha : l₁.head? = some a) : l₂.head? = some a := by
  obtain ⟨u, rfl⟩ := h
  cases l₁ with
  | nil => simp at ha
  | cons b t => simp_all

/-- Stripping both ends of a character list is idempotent. -/
lemma pyStripChars_idem (l : List Char) :
    pyStripChars (pyStripChars l) = pyStripChars l := by
  unfold pyStripChars
  set s1 := l.dropWhile isPySpace with hs1
  set s2 := s1.reverse.dropWhile isPySpace with hs2
  have hpre : s2.reverse <+: s1 := by
    have hsuf : s2 <:+ s1.reverse := by
      rw [hs2]; exact List.dropWhile_suffix _
    have h' := List.reverse_prefix.mpr hsuf
    rwa [List.reverse_reverse] at h'
  have h1 : s2.reverse.dropWhile isPySpace = s2.reverse := by
    apply dropWhile_eq_self_of_head?
    intro a ha
    have hb := prefixHead_eq hpre ha
    rw [hs1] at hb
    exact dropWhile_head_false hb
  have h2 : s2.dropWhile isPySpace = s2 := by
    apply dropWhile_eq_self_of_head?
    intro a ha
    rw [hs2] at ha
    exact dropWhile_head_false ha
  rw [h1, List.reverse_reverse, h2]

/-- `pyStrip` is idempotent, like Python's `str.strip()`. -/
lemma pyStrip_idem (s : String) : pyStrip (pyStrip s) = pyStrip s := by
  show String.mk (pyStripChars (pyStripChars s.data)) = String.mk (pyStripChars s.data)
  rw [pyStripChars_idem]

/-! ### C2: location resolution -/

/-- C2: for every raw location string and configured default, starting from
a freshly reset invocation (stored location empty): a raw location that is
non-empty after trimming resolves to the trimmed raw location regardless of
the configured default; an empty or whitespace-only raw location resolves
to the trimmed configured default (the empty string when the default entry
is null/absent). -/
theorem claim_C2 (config : String → Option String) (location d : String) :
    (pyStrip location ≠ "" → location_resolve config "" location = pyStrip location) ∧
    (pyStrip location = "" → config "default_location" = some d →
      location_resolve config "" location = pyStrip d) ∧
    (pyStrip location = "" → config "default_location" = none →
      location_resolve config "" location = "") := by
  refine ⟨?_, ?_, ?_⟩
  · intro h
    unfold location_resolve
    rw [if_pos rfl, if_pos h]
    exact pyStrip_idem location
  · intro h hd
    unfold location_resolve
    rw [if_pos rfl, if_neg (not_not_intro h)]
    unfold config_value
    rw [hd]
    exact pyStrip_idem d
  · intro h hd
    unfold location_resolve
    rw [if_pos rfl, if_neg (not_not_intro h)]
    unfold config_value
    rw [hd]
    rfl

/-- Concrete instantiation of `claim_C2`: a non-blank raw location wins
over the configured default, and a blank raw location falls back to the
trimmed default. -/
theorem claim_C2_witness :
    location_resolve (fun _ => some " Denver ") "" " KSMP " = pyStrip " KSMP " ∧
    location_resolve (fun _ => some " Denver ") "" "  " = pyStrip " Denver " :=
  ⟨(claim_C2 (fun _ => some " Denver ") " KSMP " " Denver ").1 (by decide),
   (claim_C2 (fun _ => some " Denver ") "  " " Denver ").2.1 (by decide) rfl⟩

/-! ### C10: configuration reads -/

/-- C10: reading a configuration entry that is null/absent yields the empty
string rather than failing, a non-null entry is returned with surrounding
whitespace trimmed, and with a null/absent `default_location` a blank raw
location resolves to the empty location (the embedding is a total function,
so no exception can be raised). -/
theorem claim_C10 (config : String → Option String) (name v : String) :
    (config name = none → config_value config name = "") ∧
    (config name = some v → config_value config name = pyStrip v) ∧
    (config "default_location" = none → location_resolve config "" "" = "") := by
  refine ⟨?_, ?_, ?_⟩ <;> intro h
  · unfold config_value
    rw [h]
  · unfold config_value
    rw [h]
  · unfold location_resolve
    rw [if_pos rfl, if_neg (by decide)]
    unfold config_value
    rw [h]
    rfl

/-- Concrete instantiation of `claim_C10` on a null config, a non-null
config, and the blank-location fallback. -/
theorem claim_C10_witness :
    config_value (fun _ => none) "default_location" = "" ∧
    config_value (fun _ => some " en ") "default_language" = pyStrip " en " ∧
    location_resolve (fun _ => none) "" "" = "" :=
  ⟨(claim_C10 (fun _ => none) "default_location" "x").1 rfl,
   (claim_C10 (fun _ => some " en ") "default_language" " en ").2.1 rfl,
   (claim_C10 (fun _ => none) "default_location" "x").2.2 rfl⟩

/-! ### C9: link suffix -/

/-- C9: with the `show_link` flag set, `_message` returns the content
followed by a blank line and a markdown link line containing the request
URL; with the flag unset it returns the content unchanged. -/
theorem claim_C9 (content url : String) :
    message_of true content url = content ++ "\n\n([weather.gov](" ++ url ++ "))" ∧
    message_of false content url = content :=
  ⟨rfl, rfl⟩

/-! ### C1: request-URL construction (corrected) -/

/-- C1 as stated is false: `_url` never consults `_options`.  With resolved
location `"KSMP"` and a stored language `"en"` (so the option set is
`{lang: "en"}`), the built URL is the bare
`https://w1.weather.gov/xml/current_obs/KSMP.xml` — every character of that
URL is URL-safe, so the yarl round-trip (here the stub) returns it
unchanged — not the URL with `?lang=en` appended that the claim requires. -/
theorem claim_C1_counterexample :
    options_of "en" "" = [("lang", "en")] ∧
    url_of yarlStrStub "KSMP" = "https://w1.weather.gov/xml/current_obs/KSMP.xml" ∧
    url_of yarlStrStub "KSMP" ≠
      "https://w1.weather.gov/xml/current_obs/KSMP.xml?lang=en" := by
  refine ⟨by decide, by decide, by decide⟩

/-- C1 amended: the built request URL is always the yarl round-trip of
`<base-service-url>/<location>.xml` with no query parameters appended — the
option set never enters URL construction.  Stated for every model of the
yarl round-trip that (a) never introduces a `?` into a string containing
none (yarl percent-encodes a `?` occurring in the path rather than adding
one) and (b) returns the all-safe-character URL built for `"KSMP"`
unchanged: the built URL contains no `?` whenever the location itself
contains none, and the URL for `"KSMP"` is exactly the bare `.xml` URL. -/
theorem claim_C1 (yarlStr : String → String)
    (hq : ∀ s, ¬ '?' ∈ s.data → ¬ '?' ∈ (yarlStr s).data)
    (hKSMP : yarlStr "https://w1.weather.gov/xml/current_obs/KSMP.xml" =
      "https://w1.weather.gov/xml/current_obs/KSMP.xml") :
    (∀ loc, url_of yarlStr loc = yarlStr (service_url ++ "/" ++ loc ++ ".xml")) ∧
    (∀ loc, ¬ '?' ∈ loc.data → ¬ '?' ∈ (url_of yarlStr loc).data) ∧
    url_of yarlStr "KSMP" = "https://w1.weather.gov/xml/current_obs/KSMP.xml" := by
  refine ⟨fun loc => rfl, ?_, ?_⟩
  · intro loc h
    show ¬ '?' ∈ (yarlStr (service_url ++ "/" ++ loc ++ ".xml")).data
    apply hq
    intro hmem
    simp only [String.data_append, List.mem_append] at hmem
    rcases hmem with ((h1 | h1) | h1) | h1
    · exact absurd h1 (by decide)
    · exact absurd h1 (by decide)
    · exact absurd h1 h
    · exact absurd h1 (by decide)
  · show yarlStr (service_url ++ "/" ++ "KSMP" ++ ".xml") =
      "https://w1.weather.gov/xml/current_obs/KSMP.xml"
    have harg : service_url ++ "/" ++ "KSMP" ++ ".xml" =
        "https://w1.weather.gov/xml/current_obs/KSMP.xml" := by decide
    rw [harg]
    exact hKSMP

/-- Concrete instantiation of `claim_C1`, with the identity stub standing
in for yarl (valid at these all-safe-character inputs): the URL built for
`"KSMP"` has no query string (no `?` anywhere) and equals the bare `.xml`
URL. -/
theorem claim_C1_witness :
    ¬ '?' ∈ (url_of yarlStrStub "KSMP").data ∧
    url_of yarlStrStub "KSMP" = "https://w1.weather.gov/xml/current_obs/KSMP.xml" :=
  ⟨(claim_C1 yarlStrStub (fun _ h => h) rfl).2.1 "KSMP" (by decide),
   (claim_C1 yarlStrStub (fun _ h => h) rfl).2.2⟩

/-! ### C5: per-invocation freezing of the resolved location (corrected) -/

/-- Test configuration with no entries (every key null/absent). -/
def cfgNone : String → Option String := fun _ => none

/-- Test configuration whose `default_location` entry is `"KSMP"`. -/
def cfgKSMP : String → Option String :=
  fun name => if name == "default_location" then some "KSMP" else none

/-- C5 as stated is false: when the first resolution yields the empty
string (blank raw location and blank default), the stored location stays
empty, so a second resolution re-runs and can observe a mutated default.
Here the first call resolves to `""` and the second call — after the
default mutated from absent to `"KSMP"` — resolves to `"KSMP"`. -/
theorem claim_C5_counterexample :
    location_resolve cfgNone "" "" = "" ∧
    location_resolve cfgKSMP (location_resolve cfgNone "" "") "" = "KSMP" ∧
    ("" : String) ≠ "KSMP" := by
  refine ⟨by decide, by decide, by decide⟩

/-- C5 amended: resolution is frozen after its first use within an
invocation provided the first resolution is non-empty — a second call then
returns the same resolved location even if the configured default was
mutated in between.  (When the first resolution is empty the stored field
stays empty and resolution can re-run, as the counterexample shows.) -/
theorem claim_C5 (c1 c2 : String → Option String) (raw1 raw2 : String)
    (h : location_resolve c1 "" raw1 ≠ "") :
    location_resolve c2 (location_resolve c1 "" raw1) raw2 =
      location_resolve c1 "" raw1 := by
  set x := location_resolve c1 "" raw1 with hx
  unfold location_resolve
  rw [if_neg h]

/-- Concrete instantiation of `claim_C5`: a first resolution to `"KPDX"`
is returned unchanged by a second call under a different configuration. -/
theorem claim_C5_witness :
    location_resolve cfgNone (location_resolve cfgKSMP "" "KPDX") "" =
      location_resolve cfgKSMP "" "KPDX" :=
  claim_C5 cfgKSMP cfgNone "KPDX" "" (by decide)

/-! ### Helper lemmas about the observation dictionary -/

/-- Lookup in the empty dictionary. -/
lemma dictLookup_nil {α : Type} (k : String) :
    dictLookup ([] : List (String × α)) k = none := rfl

/-- Lookup in a cons dictionary. -/
lemma dictLookup_cons {α : Type} (k₀ : String) (v₀ : α)
    (tl : List (String × α)) (k' : String) :
    dictLookup ((k₀, v₀) :: tl) k' = if k₀ = k' then some v₀ else dictLookup tl k' := by
  by_cases h : k₀ = k' <;> simp [dictLookup, List.find?_cons, h]

/-- Lookup after a Python-`dict` insertion: the inserted key maps to the
new value, every other key is unaffected. -/
lemma dictLookup_insert {α : Type} (d : List (String × α)) (k k' : String) (v : α) :
    dictLookup (dictInsert d k v) k' = if k' = k then some v else dictLookup d k' := by
  induction d with
  | nil =>
    show dictLookup [(k, v)] k' = _
    rw [dictLookup_cons, dictLookup_nil]
    by_cases h : k' = k
    · simp [h]
    · simp [h, Ne.symm h]
  | cons hd tl ih =>
    obtain ⟨k₀, v₀⟩ := hd
    by_cases h0 : k₀ = k
    · have hins : dictInsert ((k₀, v₀) :: tl) k v = (k₀, v) :: tl := by
        simp [dictInsert, h0]
      rw [hins, dictLookup_cons, dictLookup_cons]
      subst h0
      by_cases h : k' = k₀
      · simp [h]
      · simp [h, Ne.symm h]
    · have hins : dictInsert ((k₀, v₀) :: tl) k v = (k₀, v₀) :: dictInsert tl k v := by
        simp [dictInsert, h0]
      rw [hins, dictLookup_cons, dictLookup_cons, ih]
      by_cases h : k₀ = k'
      · subst h
        simp [h0]
      · simp [h]

/-- Follows the spec's words, for the refinement comparison of C3: among
the direct children that are kept (tag not exactly `image` or
`observation_time`), the text of the **last** occurrence of tag `k`
(`none` when no kept child has tag `k`). -/
def specLastKeptText (children : List XMLElem) (k : String) : Option (Option String) :=
  (children.reverse.find?
      (fun c => !(c.tag == "image") && !(c.tag == "observation_time") && (c.tag == k))).map
    XMLElem.text

/-- Running the `_parse_xml` loop over children `cs` starting from an
accumulated dictionary `d`: a key resolves to the last kept occurrence
among `cs`, falling back to the accumulated dictionary. -/
lemma dictLookup_foldl_parseStep (cs : List XMLElem)
    (d : List (String × Option String)) (k : String) :
    dictLookup (cs.foldl parseStep d) k = (specLastKeptText cs k).or (dictLookup d k) := by
  induction cs using List.reverseRecOn generalizing d with
  | nil => simp [specLastKeptText]
  | append_singleton cs c ih =>
    rw [List.foldl_append, List.foldl_cons, List.foldl_nil]
    have hspec : specLastKeptText (cs ++ [c]) k =
        (if (!(c.tag == "image") && !(c.tag == "observation_time") && (c.tag == k)) = true
         then some c.text else specLastKeptText cs k) := by
      unfold specLastKeptText
      rw [List.reverse_append]
      simp only [List.reverse_singleton, List.singleton_append, List.find?_cons]
      by_cases hb :
          (!(c.tag == "image") && !(c.tag == "observation_time") && (c.tag == k)) = true
      · simp [hb]
      · rw [Bool.not_eq_true] at hb
        simp [hb]
    rw [hspec]
    by_cases h1 : c.tag = "image"
    · have hpred :
          (!(c.tag == "image") && !(c.tag == "observation_time") && (c.tag == k)) = false := by
        simp [h1]
      rw [if_neg (by simp [hpred])]
      have hstep : parseStep (cs.foldl parseStep d) c = cs.foldl parseStep d := by
        simp [parseStep, h1]
      rw [hstep]
      exact ih d
    · by_cases h2 : c.tag = "observation_time"
      · have hpred :
            (!(c.tag == "image") && !(c.tag == "observation_time") && (c.tag == k)) = false := by
          simp [h2]
        rw [if_neg (by simp [hpred])]
        have hstep : parseStep (cs.foldl parseStep d) c = cs.foldl parseStep d := by
          simp [parseStep, h1, h2]
        rw [hstep]
        exact ih d
      · have hstep : parseStep (cs.foldl parseStep d) c =
            dictInsert (cs.foldl parseStep d) c.tag c.text := by
          simp [parseStep, h1, h2]
        rw [hstep, dictLookup_insert]
        by_cases h3 : c.tag = k
        · have hpred :
              (!(c.tag == "image") && !(c.tag == "observation_time") && (c.tag == k)) = true := by
            rw [h3] at h1 h2
            simp [h1, h2, h3]
          rw [if_pos hpred, if_pos h3.symm]
          simp
        · have hpred :
              (!(c.tag == "image") && !(c.tag == "observation_time") && (c.tag == k)) = false := by
            simp [h3]
          have hnp :
              ¬((!(c.tag == "image") && !(c.tag == "observation_time") && (c.tag == k)) = true) := by
            simp [hpred]
          rw [if_neg hnp, if_neg (Ne.symm h3), ih d]

/-! ### C3: XML parsing (skip rule, last occurrence wins, empty root) -/

/-- C3: parsing iterates the direct children of the root, skips children
tagged exactly `image` or `observation_time`, and inserts tag/text with
last-occurrence-wins overwrite (every lookup in the resulting record equals
the spec-side "text of the last kept occurrence"); the documented example
yields exactly the two-entry record, and a root with no children yields the
empty mapping rather than an error. -/
theorem claim_C3 :
    (∀ tree k, dictLookup (parse_tree tree) k = specLastKeptText tree.children k) ∧
    parse_tree (XMLElem.mk "current_observation" none
      [XMLElem.mk "image" (some "img") [], XMLElem.mk "observation_time" (some "t") [],
       XMLElem.mk "station_id" (some "KSMP") [], XMLElem.mk "weather" (some "Fair") []]) =
      [("station_id", some "KSMP"), ("weather", some "Fair")] ∧
    (∀ tree, tree.children = [] → parse_tree tree = []) := by
  refine ⟨?_, by decide, ?_⟩
  · intro tree k
    unfold parse_tree
    rw [dictLookup_foldl_parseStep, dictLookup_nil, Option.or_none]
  · intro tree h
    unfold parse_tree
    rw [h]
    rfl

/-- Concrete instantiation of `claim_C3`: a lookup in a parsed one-child
document agrees with the spec-side description, and parsing an empty root
yields the empty record. -/
theorem claim_C3_witness :
    dictLookup (parse_tree (XMLElem.mk "r" none [XMLElem.mk "weather" (some "Fair") []]))
      "weather" =
      specLastKeptText (XMLElem.mk "r" none [XMLElem.mk "weather" (some "Fair") []]).children
        "weather" ∧
    parse_tree (XMLElem.mk "current_observation" none []) = [] :=
  ⟨claim_C3.1 (XMLElem.mk "r" none [XMLElem.mk "weather" (some "Fair") []]) "weather",
   claim_C3.2.2 (XMLElem.mk "current_observation" none []) rfl⟩

/-! ### C4: malformed input (error propagation, no partial record) -/

/-- C4: `_parse_xml` runs `ET.fromstring` first; when the input is not
well-formed XML the parser's error propagates unchanged, and a record is
produced only from a successfully parsed document (and then it is the fully
constructed record of that document's root — never a partial one). -/
theorem claim_C4 (fromstring : String → Except ParseError XMLElem) (xmldata : String) :
    (∀ e, fromstring xmldata = .error e → parse_xml fromstring xmldata = .error e) ∧
    (∀ d, parse_xml fromstring xmldata = .ok d →
      ∃ tree, fromstring xmldata = .ok tree ∧ d = parse_tree tree) := by
  refine ⟨?_, ?_⟩
  · intro e h
    unfold parse_xml
    rw [h]
  · intro d h
    unfold parse_xml at h
    cases hf : fromstring xmldata with
    | error e =>
      rw [hf] at h
      exact Except.noConfusion h
    | ok tree =>
      rw [hf] at h
      refine ⟨tree, rfl, ?_⟩
      injection h with h'
      exact h'.symm

/-- Test stand-in for `ElementTree.fromstring`, used only to instantiate
`claim_C4` at concrete inputs: it accepts one fixed well-formed document
and rejects everything else as malformed. -/
def fromstringStub : String → Except ParseError XMLElem :=
  fun s =>
    if s == "<current_observation></current_observation>"
    then .ok (XMLElem.mk "current_observation" none [])
    else .error ⟨"not well-formed"⟩

/-- Concrete instantiation of `claim_C4`: non-XML input makes the parser
fail with the propagated error and no record, while the accepted document
produces exactly the record of its root. -/
theorem claim_C4_witness :
    parse_xml fromstringStub "this is not XML" = .error ⟨"not well-formed"⟩ ∧
    (∃ tree, fromstringStub "<current_observation></current_observation>" = .ok tree ∧
      parse_tree (XMLElem.mk "current_observation" none []) = parse_tree tree) :=
  ⟨(claim_C4 fromstringStub "this is not XML").1 ⟨"not well-formed"⟩ rfl,
   (claim_C4 fromstringStub "<current_observation></current_observation>").2
     (parse_tree (XMLElem.mk "current_observation" none [])) rfl⟩

/-! ### C6: values stored verbatim (corrected) -/

/-- C6 as stated is false: the document
`<current_observation><station_id/></current_observation>` is well-formed,
yet the value stored for `station_id` is Python's `None` (the element has
no text), which is not a string taken from the wire format. -/
theorem claim_C6_counterexample :
    dictLookup (parse_tree (XMLElem.mk "current_observation" none
      [XMLElem.mk "station_id" none []])) "station_id" = some none ∧
    ∀ s : String, (none : Option String) ≠ some s :=
  ⟨by decide, fun _ h => Option.noConfusion h⟩

/-- C6 amended: every value stored in the observation record is the text
content of some kept direct child of the root, taken verbatim — the
unchanged string when the element has text, and the null marker (`None`)
when it has none; no type coercion is applied to any field value. -/
theorem claim_C6 (tree : XMLElem) (k : String) (v : Option String)
    (h : dictLookup (parse_tree tree) k = some v) :
    ∃ c ∈ tree.children, c.tag = k ∧ c.text = v := by
  unfold parse_tree at h
  rw [dictLookup_foldl_parseStep, dictLookup_nil, Option.or_none] at h
  unfold specLastKeptText at h
  obtain ⟨c, hc, htext⟩ := Option.map_eq_some'.mp h
  have hmem : c ∈ tree.children.reverse := List.mem_of_find?_eq_some hc
  have hp := List.find?_some hc
  rw [List.mem_reverse] at hmem
  simp only [Bool.and_eq_true, beq_iff_eq, Bool.not_eq_true'] at hp
  exact ⟨c, hmem, hp.2, htext⟩

/-! ### C7: missing fields render a placeholder, formatting completes -/

/-- C7: for every observation record and every one of the eight expected
fields that is missing (`wxdata.get` yields `None`), formatting still
completes — `wxfmt` is a total function — and the rendered message contains
the placeholder text (`"None"`, the textual form Python's f-string gives a
missing value) in that field's slot. -/
theorem claim_C7 (wxdata : List (String × Option String)) (k : String)
    (hk : k ∈ eightFields) (hmiss : pyGet wxdata k = none) :
    ∃ pre post, wxfmt wxdata = pre ++ "None" ++ post := by
  simp only [eightFields, List.mem_cons, List.not_mem_nil, or_false] at hk
  rcases hk with rfl | rfl | rfl | rfl | rfl | rfl | rfl | rfl
  · exact ⟨"[",
      "] Location: " ++ pyStrOpt (pyGet wxdata "location") ++ "\\\n" ++
        "Weather: " ++ pyStrOpt (pyGet wxdata "weather") ++ "\\\n" ++
        "Temperature: " ++ pyStrOpt (pyGet wxdata "temperature_string") ++ "\\\n" ++
        "Relative Humidity: " ++ pyStrOpt (pyGet wxdata "relative_humidity") ++ "\\\n" ++
        "Wind: " ++ pyStrOpt (pyGet wxdata "wind_string") ++ "\\\n" ++
        "Dew Point: " ++ pyStrOpt (pyGet wxdata "dewpoint_string") ++ "\\\n" ++
        "Visibility (miles): " ++ pyStrOpt (pyGet wxdata "visibility_mi"),
      by simp only [wxfmt, hmiss, pyStrOpt, String.append_assoc]⟩
  · exact ⟨"[" ++ pyStrOpt (pyGet wxdata "station_id") ++ "] Location: ",
      "\\\n" ++
        "Weather: " ++ pyStrOpt (pyGet wxdata "weather") ++ "\\\n" ++
        "Temperature: " ++ pyStrOpt (pyGet wxdata "temperature_string") ++ "\\\n" ++
        "Relative Humidity: " ++ pyStrOpt (pyGet wxdata "relative_humidity") ++ "\\\n" ++
        "Wind: " ++ pyStrOpt (pyGet wxdata "wind_string") ++ "\\\n" ++
        "Dew Point: " ++ pyStrOpt (pyGet wxdata "dewpoint_string") ++ "\\\n" ++
        "Visibility (miles): " ++ pyStrOpt (pyGet wxdata "visibility_mi"),
      by simp only [wxfmt, hmiss, pyStrOpt, String.append_assoc]⟩
  · exact ⟨"[" ++ pyStrOpt (pyGet wxdata "station_id") ++ "] Location: " ++
        pyStrOpt (pyGet wxdata "location") ++ "\\\n" ++ "Weather: ",
      "\\\n" ++
        "Temperature: " ++ pyStrOpt (pyGet wxdata "temperature_string") ++ "\\\n" ++
        "Relative Humidity: " ++ pyStrOpt (pyGet wxdata "relative_humidity") ++ "\\\n" ++
        "Wind: " ++ pyStrOpt (pyGet wxdata "wind_string") ++ "\\\n" ++
        "Dew Point: " ++ pyStrOpt (pyGet wxdata "dewpoint_string") ++ "\\\n" ++
        "Visibility (miles): " ++ pyStrOpt (pyGet wxdata "visibility_mi"),
      by simp only [wxfmt, hmiss, pyStrOpt, String.append_assoc]⟩
  · exact ⟨"[" ++ pyStrOpt (pyGet wxdata "station_id") ++ "] Location: " ++
        pyStrOpt (pyGet wxdata "location") ++ "\\\n" ++ "Weather: " ++
        pyStrOpt (pyGet wxdata "weather") ++ "\\\n" ++ "Temperature: ",
      "\\\n" ++
        "Relative Humidity: " ++ pyStrOpt (pyGet wxdata "relative_humidity") ++ "\\\n" ++
        "Wind: " ++ pyStrOpt (pyGet wxdata "wind_string") ++ "\\\n" ++
        "Dew Point: " ++ pyStrOpt (pyGet wxdata "dewpoint_string") ++ "\\\n" ++
        "Visibility (miles): " ++ pyStrOpt (pyGet wxdata "visibility_mi"),
      by simp only [wxfmt, hmiss, pyStrOpt, String.append_assoc]⟩
  · exact ⟨"[" ++ pyStrOpt (pyGet wxdata "station_id") ++ "] Location: " ++
        pyStrOpt (pyGet wxdata "location") ++ "\\\n" ++ "Weather: " ++
        pyStrOpt (pyGet wxdata "weather") ++ "\\\n" ++ "Temperature: " ++
        pyStrOpt (pyGet wxdata "temperature_string") ++ "\\\n" ++ "Relative Humidity: ",
      "\\\n" ++
        "Wind: " ++ pyStrOpt (pyGet wxdata "wind_string") ++ "\\\n" ++
        "Dew Point: " ++ pyStrOpt (pyGet wxdata "dewpoint_string") ++ "\\\n" ++
        "Visibility (miles): " ++ pyStrOpt (pyGet wxdata "visibility_mi"),
      by simp only [wxfmt, hmiss, pyStrOpt, String.append_assoc]⟩
  · exact ⟨"[" ++ pyStrOpt (pyGet wxdata "station_id") ++ "] Location: " ++
        pyStrOpt (pyGet wxdata "location") ++ "\\\n" ++ "Weather: " ++
        pyStrOpt (pyGet wxdata "weather") ++ "\\\n" ++ "Temperature: " ++
        pyStrOpt (pyGet wxdata "temperature_string") ++ "\\\n" ++ "Relative Humidity: " ++
        pyStrOpt (pyGet wxdata "relative_humidity") ++ "\\\n" ++ "Wind: ",
      "\\\n" ++
        "Dew Point: " ++ pyStrOpt (pyGet wxdata "dewpoint_string") ++ "\\\n" ++
        "Visibility (miles): " ++ pyStrOpt (pyGet wxdata "visibility_mi"),
      by simp only [wxfmt, hmiss, pyStrOpt, String.append_assoc]⟩
  · exact ⟨"[" ++ pyStrOpt (pyGet wxdata "station_id") ++ "] Location: " ++
        pyStrOpt (pyGet wxdata "location") ++ "\\\n" ++ "Weather: " ++
        pyStrOpt (pyGet wxdata "weather") ++ "\\\n" ++ "Temperature: " ++
        pyStrOpt (pyGet wxdata "temperature_string") ++ "\\\n" ++ "Relative Humidity: " ++
        pyStrOpt (pyGet wxdata "relative_humidity") ++ "\\\n" ++ "Wind: " ++
        pyStrOpt (pyGet wxdata "wind_string") ++ "\\\n" ++ "Dew Point: ",
      "\\\n" ++ "Visibility (miles): " ++ pyStrOpt (pyGet wxdata "visibility_mi"),
      by simp only [wxfmt, hmiss, pyStrOpt, String.append_assoc]⟩
  · exact ⟨"[" ++ pyStrOpt (pyGet wxdata "station_id") ++ "] Location: " ++
        pyStrOpt (pyGet wxdata "location") ++ "\\\n" ++ "Weather: " ++
        pyStrOpt (pyGet wxdata "weather") ++ "\\\n" ++ "Temperature: " ++
        pyStrOpt (pyGet wxdata "temperature_string") ++ "\\\n" ++ "Relative Humidity: " ++
        pyStrOpt (pyGet wxdata "relative_humidity") ++ "\\\n" ++ "Wind: " ++
        pyStrOpt (pyGet wxdata "wind_string") ++ "\\\n" ++ "Dew Point: " ++
        pyStrOpt (pyGet wxdata "dewpoint_string") ++ "\\\n" ++ "Visibility (miles): ",
      "",
      by simp only [wxfmt, hmiss, pyStrOpt, String.append_assoc, String.append_empty]⟩

/-- Concrete instantiation of `claim_C7`: formatting the empty record (all
eight fields missing) completes and renders the placeholder. -/
theorem claim_C7_witness : ∃ pre post, wxfmt [] = pre ++ "None" ++ post :=
  claim_C7 [] "weather" (by decide) rfl

/-! ### C8: full-record formatting with `show_link=false` (corrected) -/

/-- The observation record of the claim, with all eight fields present. -/
def rec8 : List (String × Option String) :=
  [("station_id", some "KSMP"), ("location", some "St. Paul"), ("weather", some "Fair"),
   ("temperature_string", some "72F"), ("relative_humidity", some "40%"),
   ("wind_string", some "Calm"), ("dewpoint_string", some "50F"),
   ("visibility_mi", some "10")]

/-- C8 as stated is false in one respect: the fixed template is not
eight-line.  The message rendered from the full record contains six
newline characters, i.e. seven lines (the first line carries two fields:
`station_id` and `location`), not eight. -/
theorem claim_C8_counterexample :
    (((message_of false (wxfmt rec8) (url_of yarlStrStub "KSMP")).data.filter
        (fun c => c == '\n')).length + 1 = 7) ∧ (7 : Nat) ≠ 8 := by
  refine ⟨by decide, by decide⟩

/-- C8 amended: given the full eight-field record and `show_link = false`,
the rendered message matches the fixed template exactly — seven lines
joined by a backslash-newline markdown break, covering the eight fields
with two on the first line — and nothing (in particular no link section)
is appended, whatever the request URL. -/
theorem claim_C8 (url : String) :
    message_of false (wxfmt rec8) url =
      "[KSMP] Location: St. Paul\\\nWeather: Fair\\\nTemperature: 72F\\\nRelative Humidity: 40%\\\nWind: Calm\\\nDew Point: 50F\\\nVisibility (miles): 10" := by
  rfl

/-- Concrete instantiation of `claim_C6`: the stored `weather` value of a
one-child document is verbatim the child's text content. -/
theorem claim_C6_witness :
    ∃ c ∈ (XMLElem.mk "r" none [XMLElem.mk "weather" (some "Fair") []]).children,
      c.tag = "weather" ∧ c.text = some "Fair" :=
  claim_C6 (XMLElem.mk "r" none [XMLElem.mk "weather" (some "Fair") []])
    "weather" (some "Fair") (by decide)
